import Mathlib

/-!
Verification of the rent-vs-buy projection engine (`calculate` in the
calculator module).  The engine is a pure function over numeric inputs; we
embed it over `ℚ` with explicit state passing: the year loop is `simYears`,
the inner 12-month loop is `monthStep` iterated, and the summary step is
`calculate`, which is fallible (reading the last element of an empty
`yearlyData` is a runtime failure in the source, modelled as `none`).
-/

namespace RentVsBuy

/-- Input record of the engine, mirroring the `Inputs` interface.  The two
year counts are positive integers per the data model; all other fields are
plain numbers. -/
structure Inputs where
  homePrice : ℚ
  downPaymentPct : ℚ
  mortgageRate : ℚ
  loanTermYears : ℕ
  propertyTaxRate : ℚ
  homeInsurance : ℚ
  maintenancePct : ℚ
  hoaMonthly : ℚ
  homeAppreciation : ℚ
  monthlyRent : ℚ
  rentIncrease : ℚ
  investmentReturn : ℚ
  yearsToAnalyze : ℕ
deriving Repr, DecidableEq

/-- One per-year record pushed into `yearlyData`. -/
structure YearlySnapshot where
  year : ℕ
  cumulativeBuyCost : ℚ
  cumulativeRentCost : ℚ
  cumulativeTrueBuyCost : ℚ
  buyNetWorth : ℚ
  rentNetWorth : ℚ
deriving Repr, DecidableEq

/-- The `'buy' | 'rent' | 'neutral'` union of the result type. -/
inductive Verdict where
  | buy
  | rent
  | neutral
deriving Repr, DecidableEq

/-- Result record of the engine, mirroring `CalculationResult`. -/
structure CalculationResult where
  monthlyMortgage : ℚ
  monthlyBuyTotal : ℚ
  monthlyRentTotal : ℚ
  breakevenYear : Option ℕ
  yearlyData : List YearlySnapshot
  totalBuyCost : ℚ
  totalRentCost : ℚ
  buyNetWorthFinal : ℚ
  rentNetWorthFinal : ℚ
  recommendation : Verdict
  downPayment : ℚ
deriving Repr, DecidableEq

/-- Derived constant `downPayment = homePrice * (downPaymentPct / 100)`. -/
def downPayment (i : Inputs) : ℚ :=
  i.homePrice * (i.downPaymentPct / 100)

/-- Derived constant `loanAmount = homePrice - downPayment`. -/
def loanAmount (i : Inputs) : ℚ :=
  i.homePrice - downPayment i

/-- Derived constant `monthlyRate = mortgageRate / 100 / 12`. -/
def monthlyRate (i : Inputs) : ℚ :=
  i.mortgageRate / 100 / 12

/-- Derived constant `numPayments = loanTermYears * 12`. -/
def numPayments (i : Inputs) : ℕ :=
  i.loanTermYears * 12

/-- Level monthly principal-and-interest payment, with the zero-rate guard. -/
def monthlyMortgage (i : Inputs) : ℚ :=
  if monthlyRate i = 0 then
    loanAmount i / (numPayments i : ℚ)
  else
    loanAmount i * (monthlyRate i * (1 + monthlyRate i) ^ numPayments i) /
      ((1 + monthlyRate i) ^ numPayments i - 1)

/-- First-month property tax `(homePrice * (propertyTaxRate / 100)) / 12`. -/
def monthlyPropertyTax (i : Inputs) : ℚ :=
  i.homePrice * (i.propertyTaxRate / 100) / 12

/-- First-month insurance `homeInsurance / 12`. -/
def monthlyInsurance (i : Inputs) : ℚ :=
  i.homeInsurance / 12

/-- First-month maintenance `(homePrice * (maintenancePct / 100)) / 12`. -/
def monthlyMaintenance (i : Inputs) : ℚ :=
  i.homePrice * (i.maintenancePct / 100) / 12

/-- First-month total carrying cost on the buy side. -/
def monthlyBuyTotal (i : Inputs) : ℚ :=
  monthlyMortgage i + monthlyPropertyTax i + monthlyInsurance i +
    monthlyMaintenance i + i.hoaMonthly

/-- Annual appreciation rate `homeAppreciation / 100`. -/
def annualAppreciation (i : Inputs) : ℚ :=
  i.homeAppreciation / 100

/-- Annual investment rate `investmentReturn / 100`. -/
def annualInvestment (i : Inputs) : ℚ :=
  i.investmentReturn / 100

/-- Annual rent escalation rate `rentIncrease / 100`. -/
def annualRentIncrease (i : Inputs) : ℚ :=
  i.rentIncrease / 100

/-- Mutable state threaded through the simulation loop. -/
structure SimState where
  cumulativeBuyCost : ℚ
  cumulativeRentCost : ℚ
  cumulativeTrueBuyCost : ℚ
  remainingBalance : ℚ
  currentHomeValue : ℚ
  currentRent : ℚ
  rentSavings : ℚ
  buySavings : ℚ
  breakevenYear : Option ℕ
  yearlyData : List YearlySnapshot
deriving Repr, DecidableEq

/-- State just before the year loop starts: the down payment is already
counted as an outflow in `cumulativeBuyCost`. -/
def initState (i : Inputs) : SimState where
  cumulativeBuyCost := downPayment i
  cumulativeRentCost := 0
  cumulativeTrueBuyCost := 0
  remainingBalance := loanAmount i
  currentHomeValue := i.homePrice
  currentRent := i.monthlyRent
  rentSavings := 0
  buySavings := 0
  breakevenYear := none
  yearlyData := []

/-- Body of the inner `for (let month = 0; month < 12; month++)` loop:
amortization step with the balance floored at 0, cost accumulation
(maintenance against the current home value), and the invested monthly
differential with its `(1 + annualInvestment / 12)` contribution factor. -/
def monthStep (i : Inputs) (s : SimState) : SimState :=
  let interestPayment := s.remainingBalance * monthlyRate i
  let principalPayment := monthlyMortgage i - interestPayment
  let totalMonthlyBuy := monthlyMortgage i + monthlyPropertyTax i + monthlyInsurance i +
    s.currentHomeValue * (i.maintenancePct / 100) / 12 + i.hoaMonthly
  let totalMonthlyRent := s.currentRent
  let trueMonthlyCost := interestPayment + monthlyPropertyTax i + monthlyInsurance i +
    s.currentHomeValue * (i.maintenancePct / 100) / 12 + i.hoaMonthly
  let diff := totalMonthlyBuy - totalMonthlyRent
  { s with
    remainingBalance := max 0 (s.remainingBalance - principalPayment)
    cumulativeBuyCost := s.cumulativeBuyCost + totalMonthlyBuy
    cumulativeRentCost := s.cumulativeRentCost + totalMonthlyRent
    cumulativeTrueBuyCost := s.cumulativeTrueBuyCost + trueMonthlyCost
    rentSavings :=
      if diff > 0 then s.rentSavings + diff * (1 + annualInvestment i / 12) else s.rentSavings
    buySavings :=
      if diff > 0 then s.buySavings else s.buySavings + (-diff) * (1 + annualInvestment i / 12) }

/-- Body of the outer year loop: 12 month steps, then end-of-year growth of
the home value, rent and both investment accounts, the snapshot push, and
the first-crossing breakeven check. -/
def yearStep (i : Inputs) (year : ℕ) (s₀ : SimState) : SimState :=
  let s := (monthStep i)^[12] s₀
  let currentHomeValue := s.currentHomeValue * (1 + annualAppreciation i)
  let currentRent := s.currentRent * (1 + annualRentIncrease i)
  let rentSavings := s.rentSavings * (1 + annualInvestment i)
  let buySavings := s.buySavings * (1 + annualInvestment i)
  let closingCostsSell := currentHomeValue * (6 / 100 : ℚ)
  let homeEquity := currentHomeValue - s.remainingBalance - closingCostsSell
  let investedDownPayment := downPayment i * (1 + annualInvestment i) ^ year
  let snap : YearlySnapshot :=
    { year := year
      cumulativeBuyCost := s.cumulativeBuyCost
      cumulativeRentCost := s.cumulativeRentCost
      cumulativeTrueBuyCost := s.cumulativeTrueBuyCost
      buyNetWorth := homeEquity
      rentNetWorth := investedDownPayment + rentSavings }
  { s with
    currentHomeValue := currentHomeValue
    currentRent := currentRent
    rentSavings := rentSavings
    buySavings := buySavings
    yearlyData := s.yearlyData ++ [snap]
    breakevenYear :=
      if s.breakevenYear = none ∧ homeEquity > investedDownPayment + rentSavings then
        some year
      else s.breakevenYear }

/-- State after the first `y` iterations of the year loop. -/
def simYears (i : Inputs) : ℕ → SimState
  | 0 => initState i
  | y + 1 => yearStep i (y + 1) (simYears i y)

/-- State when the year loop has run to completion. -/
def finalState (i : Inputs) : SimState :=
  simYears i i.yearsToAnalyze

/-- The engine.  Reading `yearlyData[yearlyData.length - 1]` on an empty
sequence is a runtime failure in the source (property access on
`undefined`), modelled by `none`. -/
def calculate (i : Inputs) : Option CalculationResult :=
  let s := finalState i
  match s.yearlyData.getLast? with
  | none => none
  | some finalData =>
      some
        { monthlyMortgage := monthlyMortgage i
          monthlyBuyTotal := monthlyBuyTotal i
          monthlyRentTotal := i.monthlyRent
          breakevenYear := s.breakevenYear
          yearlyData := s.yearlyData
          totalBuyCost := s.cumulativeBuyCost
          totalRentCost := s.cumulativeRentCost
          buyNetWorthFinal := finalData.buyNetWorth
          rentNetWorthFinal := finalData.rentNetWorth
          recommendation :=
            if finalData.buyNetWorth > finalData.rentNetWorth then .buy else .rent
          downPayment := downPayment i }

/-- State after `y` full years plus `m` further months of the next year. -/
def simMonth (i : Inputs) (y m : ℕ) : SimState :=
  (monthStep i)^[m] (simYears i y)

/-- The amortization step in isolation: the mortgage balance is the only
state the inner loop both reads and writes for itself. -/
def balStep (i : Inputs) (b : ℚ) : ℚ :=
  max 0 (b - (monthlyMortgage i - b * monthlyRate i))

/-- Mortgage balance after `t` total months of payments. -/
def balSeq (i : Inputs) (t : ℕ) : ℚ :=
  (balStep i)^[t] (loanAmount i)

/-- The `diff` computed each month: total monthly buy cost minus rent. -/
def simDiff (i : Inputs) (s : SimState) : ℚ :=
  (monthlyMortgage i + monthlyPropertyTax i + monthlyInsurance i +
      s.currentHomeValue * (i.maintenancePct / 100) / 12 + i.hoaMonthly) - s.currentRent

/-- The snapshot the engine pushes at the end of year `y`, expressed through
the end-of-year state `simYears i y` (the year-end growth step changes none
of the cumulative counters and the snapshot is built from the post-growth
home value, rent-savings pool and the post-amortization balance). -/
def mkSnap (i : Inputs) (y : ℕ) : YearlySnapshot :=
  { year := y
    cumulativeBuyCost := (simYears i y).cumulativeBuyCost
    cumulativeRentCost := (simYears i y).cumulativeRentCost
    cumulativeTrueBuyCost := (simYears i y).cumulativeTrueBuyCost
    buyNetWorth := (simYears i y).currentHomeValue - (simYears i y).remainingBalance -
      (simYears i y).currentHomeValue * (6 / 100 : ℚ)
    rentNetWorth := downPayment i * (1 + annualInvestment i) ^ y + (simYears i y).rentSavings }

/-- Year `y` beats renting when its recorded buy-side net worth strictly
exceeds its recorded rent-side net worth. -/
def beats (i : Inputs) (y : ℕ) : Prop :=
  (mkSnap i y).rentNetWorth < (mkSnap i y).buyNetWorth

instance (i : Inputs) (y : ℕ) : Decidable (beats i y) := by
  unfold beats
  infer_instance

/-- Running total of the principal components of the first `t` monthly
payments (each one `monthlyMortgage - interestPayment`, interest computed on
the balance carried into the month). -/
def principalPaid (i : Inputs) : ℕ → ℚ
  | 0 => 0
  | t + 1 => principalPaid i t + (monthlyMortgage i - balSeq i t * monthlyRate i)

section Projections

variable (i : Inputs) (s : SimState) (y m : ℕ)

lemma monthStep_remainingBalance :
    (monthStep i s).remainingBalance = balStep i s.remainingBalance := rfl

lemma monthStep_currentHomeValue :
    (monthStep i s).currentHomeValue = s.currentHomeValue := rfl

lemma monthStep_currentRent : (monthStep i s).currentRent = s.currentRent := rfl

lemma monthStep_breakevenYear : (monthStep i s).breakevenYear = s.breakevenYear := rfl

lemma monthStep_yearlyData : (monthStep i s).yearlyData = s.yearlyData := rfl

lemma monthStep_cumulativeBuyCost :
    (monthStep i s).cumulativeBuyCost = s.cumulativeBuyCost + (simDiff i s + s.currentRent) := by
  simp [monthStep, simDiff]

lemma monthStep_cumulativeRentCost :
    (monthStep i s).cumulativeRentCost = s.cumulativeRentCost + s.currentRent := rfl

lemma monthStep_cumulativeTrueBuyCost :
    (monthStep i s).cumulativeTrueBuyCost = s.cumulativeTrueBuyCost +
      (s.remainingBalance * monthlyRate i + monthlyPropertyTax i + monthlyInsurance i +
        s.currentHomeValue * (i.maintenancePct / 100) / 12 + i.hoaMonthly) := rfl

lemma monthStep_rentSavings :
    (monthStep i s).rentSavings =
      if 0 < simDiff i s then
        s.rentSavings + simDiff i s * (1 + annualInvestment i / 12)
      else s.rentSavings := by
  simp only [monthStep, simDiff, gt_iff_lt]

lemma monthStep_buySavings :
    (monthStep i s).buySavings =
      if 0 < simDiff i s then s.buySavings
      else s.buySavings + (-simDiff i s) * (1 + annualInvestment i / 12) := by
  simp only [monthStep, simDiff, gt_iff_lt]

lemma iter_monthStep_remainingBalance :
    ((monthStep i)^[m] s).remainingBalance = (balStep i)^[m] s.remainingBalance := by
  induction m generalizing s with
  | zero => rfl
  | succ m ih =>
      rw [Function.iterate_succ_apply, Function.iterate_succ_apply, ih,
        monthStep_remainingBalance]

lemma iter_monthStep_currentHomeValue :
    ((monthStep i)^[m] s).currentHomeValue = s.currentHomeValue := by
  induction m generalizing s with
  | zero => rfl
  | succ m ih => rw [Function.iterate_succ_apply, ih, monthStep_currentHomeValue]

lemma iter_monthStep_currentRent : ((monthStep i)^[m] s).currentRent = s.currentRent := by
  induction m generalizing s with
  | zero => rfl
  | succ m ih => rw [Function.iterate_succ_apply, ih, monthStep_currentRent]

lemma iter_monthStep_breakevenYear :
    ((monthStep i)^[m] s).breakevenYear = s.breakevenYear := by
  induction m generalizing s with
  | zero => rfl
  | succ m ih => rw [Function.iterate_succ_apply, ih, monthStep_breakevenYear]

lemma iter_monthStep_yearlyData : ((monthStep i)^[m] s).yearlyData = s.yearlyData := by
  induction m generalizing s with
  | zero => rfl
  | succ m ih => rw [Function.iterate_succ_apply, ih, monthStep_yearlyData]

end Projections

section YearProjections

variable (i : Inputs) (s : SimState) (y : ℕ)

lemma yearStep_remainingBalance :
    (yearStep i y s).remainingBalance = ((monthStep i)^[12] s).remainingBalance := rfl

lemma yearStep_cumulativeBuyCost :
    (yearStep i y s).cumulativeBuyCost = ((monthStep i)^[12] s).cumulativeBuyCost := rfl

lemma yearStep_cumulativeRentCost :
    (yearStep i y s).cumulativeRentCost = ((monthStep i)^[12] s).cumulativeRentCost := rfl

lemma yearStep_cumulativeTrueBuyCost :
    (yearStep i y s).cumulativeTrueBuyCost = ((monthStep i)^[12] s).cumulativeTrueBuyCost := rfl

lemma yearStep_currentHomeValue :
    (yearStep i y s).currentHomeValue =
      ((monthStep i)^[12] s).currentHomeValue * (1 + annualAppreciation i) := rfl

lemma yearStep_currentRent :
    (yearStep i y s).currentRent =
      ((monthStep i)^[12] s).currentRent * (1 + annualRentIncrease i) := rfl

lemma yearStep_rentSavings :
    (yearStep i y s).rentSavings =
      ((monthStep i)^[12] s).rentSavings * (1 + annualInvestment i) := rfl

lemma yearStep_buySavings :
    (yearStep i y s).buySavings =
      ((monthStep i)^[12] s).buySavings * (1 + annualInvestment i) := rfl

end YearProjections

section Trajectory

variable (i : Inputs)

lemma simYears_remainingBalance (y : ℕ) :
    (simYears i y).remainingBalance = balSeq i (12 * y) := by
  induction y with
  | zero => rfl
  | succ y ih =>
      have : (simYears i (y + 1)).remainingBalance =
          ((monthStep i)^[12] (simYears i y)).remainingBalance := rfl
      rw [this, iter_monthStep_remainingBalance, ih, balSeq, balSeq,
        ← Function.iterate_add_apply]
      congr 1
      ring

lemma simMonth_remainingBalance (y m : ℕ) :
    (simMonth i y m).remainingBalance = balSeq i (12 * y + m) := by
  rw [simMonth, iter_monthStep_remainingBalance, simYears_remainingBalance, balSeq, balSeq,
    ← Function.iterate_add_apply]
  congr 1
  ring

lemma simYears_succ_yearlyData (y : ℕ) :
    (simYears i (y + 1)).yearlyData = (simYears i y).yearlyData ++ [mkSnap i (y + 1)] := by
  have h : (simYears i (y + 1)).yearlyData =
      ((monthStep i)^[12] (simYears i y)).yearlyData ++ [mkSnap i (y + 1)] := rfl
  rw [h, iter_monthStep_yearlyData]

lemma simYears_yearlyData_length (y : ℕ) : (simYears i y).yearlyData.length = y := by
  induction y with
  | zero => rfl
  | succ y ih => rw [simYears_succ_yearlyData, List.length_append, ih]; rfl

lemma simYears_yearlyData_getElem (y k : ℕ) (hk : k < y) :
    (simYears i y).yearlyData[k]? = some (mkSnap i (k + 1)) := by
  induction y with
  | zero => omega
  | succ y ih =>
      rw [simYears_succ_yearlyData]
      rcases Nat.lt_or_ge k y with h | h
      · rw [List.getElem?_append, if_pos (by rw [simYears_yearlyData_length]; exact h)]
        exact ih h
      · have hky : k = y := by omega
        subst hky
        have hl : k = (simYears i k).yearlyData.length := (simYears_yearlyData_length i k).symm
        rw [show ((simYears i k).yearlyData ++ [mkSnap i (k + 1)])[k]? =
            ((simYears i k).yearlyData ++ [mkSnap i (k + 1)])[(simYears i k).yearlyData.length]?
          from by rw [← hl]]
        exact List.getElem?_concat_length _ _

lemma simYears_succ_breakevenYear (y : ℕ) :
    (simYears i (y + 1)).breakevenYear =
      if (simYears i y).breakevenYear = none ∧ beats i (y + 1) then some (y + 1)
      else (simYears i y).breakevenYear := by
  have h : (simYears i (y + 1)).breakevenYear =
      if ((monthStep i)^[12] (simYears i y)).breakevenYear = none ∧ beats i (y + 1) then
        some (y + 1)
      else ((monthStep i)^[12] (simYears i y)).breakevenYear := rfl
  rw [h, iter_monthStep_breakevenYear]

end Trajectory

section Amortization

variable (i : Inputs)

lemma numPayments_pos (hterm : 1 ≤ i.loanTermYears) : numPayments i ≠ 0 := by
  unfold numPayments
  omega

lemma loanAmount_nonneg (hhp : 0 ≤ i.homePrice) (hpct : i.downPaymentPct ≤ 100) :
    0 ≤ loanAmount i := by
  unfold loanAmount downPayment
  nlinarith

lemma downPayment_nonneg (hhp : 0 ≤ i.homePrice) (hpct : 0 ≤ i.downPaymentPct) :
    0 ≤ downPayment i := by
  unfold downPayment
  positivity

lemma monthlyRate_nonneg (hr : 0 ≤ i.mortgageRate) : 0 ≤ monthlyRate i := by
  unfold monthlyRate
  positivity

lemma monthlyMortgage_ge (hL : 0 ≤ loanAmount i) (hr : 0 ≤ monthlyRate i)
    (hn : numPayments i ≠ 0) :
    loanAmount i * monthlyRate i ≤ monthlyMortgage i ∧ 0 ≤ monthlyMortgage i := by
  by_cases h0 : monthlyRate i = 0
  · rw [monthlyMortgage, if_pos h0, h0, mul_zero]
    refine ⟨div_nonneg hL (by positivity), div_nonneg hL (by positivity)⟩
  · have hrpos : 0 < monthlyRate i := lt_of_le_of_ne hr (Ne.symm h0)
    have hq : 1 < 1 + monthlyRate i := by linarith
    have hqn : 1 < (1 + monthlyRate i) ^ numPayments i := one_lt_pow₀ hq hn
    have hd : (0 : ℚ) < (1 + monthlyRate i) ^ numPayments i - 1 := by linarith
    rw [monthlyMortgage, if_neg h0]
    constructor
    · rw [le_div_iff₀ hd]
      have hLr : 0 ≤ loanAmount i * monthlyRate i := mul_nonneg hL hr
      nlinarith
    · have hnum : 0 ≤ loanAmount i * (monthlyRate i * (1 + monthlyRate i) ^ numPayments i) := by
        positivity
      exact div_nonneg hnum hd.le

lemma balStep_bounds (hL : 0 ≤ loanAmount i) (hr : 0 ≤ monthlyRate i)
    (hn : numPayments i ≠ 0) (b : ℚ) (hb0 : 0 ≤ b) (hbL : b ≤ loanAmount i) :
    0 ≤ balStep i b ∧ balStep i b ≤ b := by
  obtain ⟨hLrP, _⟩ := monthlyMortgage_ge i hL hr hn
  refine ⟨le_max_left _ _, max_le hb0 ?_⟩
  have hbr : b * monthlyRate i ≤ loanAmount i * monthlyRate i :=
    mul_le_mul_of_nonneg_right hbL hr
  linarith

lemma balSeq_bounds (hL : 0 ≤ loanAmount i) (hr : 0 ≤ monthlyRate i)
    (hn : numPayments i ≠ 0) (t : ℕ) :
    0 ≤ balSeq i t ∧ balSeq i t ≤ loanAmount i := by
  induction t with
  | zero => exact ⟨hL, le_refl _⟩
  | succ t ih =>
      have hstep := balStep_bounds i hL hr hn (balSeq i t) ih.1 ih.2
      rw [balSeq, Function.iterate_succ_apply']
      exact ⟨hstep.1, le_trans hstep.2 ih.2⟩

lemma balSeq_antitone (hL : 0 ≤ loanAmount i) (hr : 0 ≤ monthlyRate i)
    (hn : numPayments i ≠ 0) (t : ℕ) :
    balSeq i (t + 1) ≤ balSeq i t := by
  obtain ⟨h0, hLt⟩ := balSeq_bounds i hL hr hn t
  have hstep := balStep_bounds i hL hr hn (balSeq i t) h0 hLt
  rw [balSeq, Function.iterate_succ_apply']
  exact hstep.2

lemma balSeq_zero_rate_closed (h0 : monthlyRate i = 0) (hL : 0 ≤ loanAmount i)
    (hn : numPayments i ≠ 0) (t : ℕ) (ht : t ≤ numPayments i) :
    balSeq i t = loanAmount i - t * (loanAmount i / (numPayments i : ℚ)) := by
  have hP : monthlyMortgage i = loanAmount i / (numPayments i : ℚ) := by
    rw [monthlyMortgage, if_pos h0]
  have hnq : (0 : ℚ) < (numPayments i : ℚ) := by
    exact_mod_cast Nat.pos_of_ne_zero hn
  have hLn : 0 ≤ loanAmount i / (numPayments i : ℚ) := div_nonneg hL hnq.le
  induction t with
  | zero => simp [balSeq]
  | succ t ih =>
      have htn : t ≤ numPayments i := Nat.le_of_succ_le ht
      have ih' := ih htn
      rw [balSeq, Function.iterate_succ_apply']
      rw [show (balStep i) ((balStep i)^[t] (loanAmount i)) = balStep i (balSeq i t) from rfl,
        ih', balStep, h0, mul_zero, sub_zero, hP]
      have htn1 : ((t : ℚ) + 1) ≤ (numPayments i : ℚ) := by exact_mod_cast ht
      have hnonneg :
          0 ≤ loanAmount i - (t : ℚ) * (loanAmount i / (numPayments i : ℚ)) -
            loanAmount i / (numPayments i : ℚ) := by
        have hmul : ((t : ℚ) + 1) * (loanAmount i / (numPayments i : ℚ)) ≤
            (numPayments i : ℚ) * (loanAmount i / (numPayments i : ℚ)) :=
          mul_le_mul_of_nonneg_right htn1 hLn
        have hcancel : (numPayments i : ℚ) * (loanAmount i / (numPayments i : ℚ)) =
            loanAmount i := by
          field_simp
        have hexp : ((t : ℚ) + 1) * (loanAmount i / (numPayments i : ℚ)) =
            (t : ℚ) * (loanAmount i / (numPayments i : ℚ)) +
              loanAmount i / (numPayments i : ℚ) := by
          ring
        linarith
      rw [max_eq_right hnonneg]
      push_cast
      ring

lemma balSeq_pos_rate_closed (hr : 0 ≤ monthlyRate i) (h0 : monthlyRate i ≠ 0)
    (hL : 0 ≤ loanAmount i) (hn : numPayments i ≠ 0) (t : ℕ) (ht : t ≤ numPayments i) :
    balSeq i t = loanAmount i *
      ((1 + monthlyRate i) ^ numPayments i - (1 + monthlyRate i) ^ t) /
        ((1 + monthlyRate i) ^ numPayments i - 1) := by
  have hrpos : 0 < monthlyRate i := lt_of_le_of_ne hr (Ne.symm h0)
  have hq : 1 < 1 + monthlyRate i := by linarith
  have hqn : 1 < (1 + monthlyRate i) ^ numPayments i := one_lt_pow₀ hq hn
  have hd : (0 : ℚ) < (1 + monthlyRate i) ^ numPayments i - 1 := by linarith
  have hP : monthlyMortgage i = loanAmount i *
      (monthlyRate i * (1 + monthlyRate i) ^ numPayments i) /
        ((1 + monthlyRate i) ^ numPayments i - 1) := by
    rw [monthlyMortgage, if_neg h0]
  induction t with
  | zero =>
      rw [balSeq, Function.iterate_zero_apply, pow_zero, mul_div_assoc,
        div_self hd.ne', mul_one]
  | succ t ih =>
      have htn : t ≤ numPayments i := Nat.le_of_succ_le ht
      have ih' := ih htn
      rw [balSeq, Function.iterate_succ_apply']
      rw [show (balStep i) ((balStep i)^[t] (loanAmount i)) = balStep i (balSeq i t) from rfl,
        ih', balStep, hP]
      have hpow : (1 + monthlyRate i) ^ (t + 1) ≤ (1 + monthlyRate i) ^ numPayments i :=
        pow_le_pow_right₀ hq.le ht
      have hkey : loanAmount i *
            ((1 + monthlyRate i) ^ numPayments i - (1 + monthlyRate i) ^ t) /
              ((1 + monthlyRate i) ^ numPayments i - 1) -
          (loanAmount i * (monthlyRate i * (1 + monthlyRate i) ^ numPayments i) /
              ((1 + monthlyRate i) ^ numPayments i - 1) -
            loanAmount i *
              ((1 + monthlyRate i) ^ numPayments i - (1 + monthlyRate i) ^ t) /
                ((1 + monthlyRate i) ^ numPayments i - 1) * monthlyRate i) =
          loanAmount i *
            ((1 + monthlyRate i) ^ numPayments i - (1 + monthlyRate i) ^ (t + 1)) /
              ((1 + monthlyRate i) ^ numPayments i - 1) := by
        field_simp
        ring
      rw [hkey]
      refine max_eq_right ?_
      have hnum : 0 ≤ loanAmount i *
          ((1 + monthlyRate i) ^ numPayments i - (1 + monthlyRate i) ^ (t + 1)) :=
        mul_nonneg hL (by linarith)
      exact div_nonneg hnum hd.le

lemma balSeq_at_numPayments (hr : 0 ≤ monthlyRate i) (hL : 0 ≤ loanAmount i)
    (hn : numPayments i ≠ 0) : balSeq i (numPayments i) = 0 := by
  by_cases h0 : monthlyRate i = 0
  · rw [balSeq_zero_rate_closed i h0 hL hn _ (le_refl _)]
    have hnq : ((numPayments i : ℚ)) ≠ 0 := by
      exact_mod_cast hn
    rw [mul_div_assoc', mul_comm, mul_div_assoc, div_self hnq, mul_one, sub_self]
  · rw [balSeq_pos_rate_closed i hr h0 hL hn _ (le_refl _), sub_self, mul_zero, zero_div]

lemma balSeq_succ (t : ℕ) : balSeq i (t + 1) = balStep i (balSeq i t) := by
  rw [balSeq, balSeq, Function.iterate_succ_apply']

lemma balSeq_stays_zero (hP : 0 ≤ monthlyMortgage i) (t : ℕ) (ht : balSeq i t = 0)
    (u : ℕ) : balSeq i (t + u) = 0 := by
  induction u with
  | zero => exact ht
  | succ u ih =>
      rw [show t + (u + 1) = (t + u) + 1 from rfl, balSeq, Function.iterate_succ_apply',
        show (balStep i) ((balStep i)^[t + u] (loanAmount i)) = balStep i (balSeq i (t + u))
          from rfl,
        ih, balStep]
      rw [zero_mul, sub_zero, zero_sub]
      exact max_eq_left (neg_nonpos.mpr hP)

end Amortization

/-- All rate and currency inputs of the record are non-negative (the year
counts are `ℕ` and carry their own positivity side conditions). -/
def NonnegInputs (i : Inputs) : Prop :=
  0 ≤ i.homePrice ∧ 0 ≤ i.downPaymentPct ∧ 0 ≤ i.mortgageRate ∧ 0 ≤ i.propertyTaxRate ∧
    0 ≤ i.homeInsurance ∧ 0 ≤ i.maintenancePct ∧ 0 ≤ i.hoaMonthly ∧
    0 ≤ i.homeAppreciation ∧ 0 ≤ i.monthlyRent ∧ 0 ≤ i.rentIncrease ∧
    0 ≤ i.investmentReturn

instance (i : Inputs) : Decidable (NonnegInputs i) := by
  unfold NonnegInputs
  infer_instance

/-- Invariant satisfied by every state the simulation reaches from sensible
inputs: the balance sits between 0 and the loan amount and the home value,
rent and both savings pools are non-negative. -/
def GoodState (i : Inputs) (s : SimState) : Prop :=
  0 ≤ s.remainingBalance ∧ s.remainingBalance ≤ loanAmount i ∧
    0 ≤ s.currentHomeValue ∧ 0 ≤ s.currentRent ∧ 0 ≤ s.rentSavings ∧ 0 ≤ s.buySavings

section Invariants

variable {i : Inputs}

lemma monthStep_cumulativeBuyCost_eq (s : SimState) :
    (monthStep i s).cumulativeBuyCost = s.cumulativeBuyCost +
      (monthlyMortgage i + monthlyPropertyTax i + monthlyInsurance i +
        s.currentHomeValue * (i.maintenancePct / 100) / 12 + i.hoaMonthly) := rfl

lemma savings_step_nonneg (hinv : 0 ≤ i.investmentReturn) (s : SimState)
    (h1 : 0 ≤ s.rentSavings) (h2 : 0 ≤ s.buySavings) :
    0 ≤ (monthStep i s).rentSavings ∧ 0 ≤ (monthStep i s).buySavings := by
  have hf : 0 ≤ 1 + annualInvestment i / 12 := by
    unfold annualInvestment
    positivity
  rw [monthStep_rentSavings, monthStep_buySavings]
  by_cases hd : 0 < simDiff i s
  · rw [if_pos hd, if_pos hd]
    exact ⟨by nlinarith, h2⟩
  · rw [if_neg hd, if_neg hd]
    have : 0 ≤ -simDiff i s := by
      push_neg at hd
      linarith
    exact ⟨h1, by nlinarith⟩

lemma iter_savings_nonneg (hinv : 0 ≤ i.investmentReturn) (m : ℕ) (s : SimState)
    (h1 : 0 ≤ s.rentSavings) (h2 : 0 ≤ s.buySavings) :
    0 ≤ ((monthStep i)^[m] s).rentSavings ∧ 0 ≤ ((monthStep i)^[m] s).buySavings := by
  induction m generalizing s with
  | zero => exact ⟨h1, h2⟩
  | succ m ih =>
      rw [Function.iterate_succ_apply]
      obtain ⟨hr, hb⟩ := savings_step_nonneg hinv s h1 h2
      exact ih _ hr hb

lemma simYears_savings_nonneg (hinv : 0 ≤ i.investmentReturn) (y : ℕ) :
    0 ≤ (simYears i y).rentSavings ∧ 0 ≤ (simYears i y).buySavings := by
  have hfa : 0 ≤ 1 + annualInvestment i := by
    unfold annualInvestment
    positivity
  induction y with
  | zero => exact ⟨le_refl 0, le_refl 0⟩
  | succ y ih =>
      obtain ⟨hr, hb⟩ := iter_savings_nonneg hinv 12 _ ih.1 ih.2
      rw [show simYears i (y + 1) = yearStep i (y + 1) (simYears i y) from rfl,
        yearStep_rentSavings, yearStep_buySavings]
      exact ⟨mul_nonneg hr hfa, mul_nonneg hb hfa⟩

lemma simMonth_savings_nonneg (hinv : 0 ≤ i.investmentReturn) (y m : ℕ) :
    0 ≤ (simMonth i y m).rentSavings ∧ 0 ≤ (simMonth i y m).buySavings := by
  obtain ⟨hr, hb⟩ := simYears_savings_nonneg hinv y
  exact iter_savings_nonneg hinv m _ hr hb

lemma monthStep_good (hn : NonnegInputs i) (hpct : i.downPaymentPct ≤ 100)
    (hterm : 1 ≤ i.loanTermYears) (s : SimState) (hs : GoodState i s) :
    GoodState i (monthStep i s) := by
  obtain ⟨hhp, hdp, hmr, htx, hins, hmnt, hhoa, happ, hrent, hri, hinv⟩ := hn
  obtain ⟨hb0, hbL, hv, hcr, hrs, hbs⟩ := hs
  have hL := loanAmount_nonneg i hhp hpct
  have hr := monthlyRate_nonneg i hmr
  have hnp := numPayments_pos i hterm
  have hbal := balStep_bounds i hL hr hnp s.remainingBalance hb0 hbL
  obtain ⟨hrs', hbs'⟩ := savings_step_nonneg hinv s hrs hbs
  refine ⟨?_, ?_, ?_, ?_, hrs', hbs'⟩
  · rw [monthStep_remainingBalance]
    exact hbal.1
  · rw [monthStep_remainingBalance]
    exact le_trans hbal.2 hbL
  · rw [monthStep_currentHomeValue]
    exact hv
  · rw [monthStep_currentRent]
    exact hcr

lemma monthStep_cum_mono (hn : NonnegInputs i) (hpct : i.downPaymentPct ≤ 100)
    (hterm : 1 ≤ i.loanTermYears) (s : SimState) (hs : GoodState i s) :
    s.cumulativeBuyCost ≤ (monthStep i s).cumulativeBuyCost ∧
      s.cumulativeRentCost ≤ (monthStep i s).cumulativeRentCost ∧
      s.cumulativeTrueBuyCost ≤ (monthStep i s).cumulativeTrueBuyCost := by
  obtain ⟨hhp, hdp, hmr, htx, hins, hmnt, hhoa, happ, hrent, hri, hinv⟩ := hn
  obtain ⟨hb0, hbL, hv, hcr, hrs, hbs⟩ := hs
  have hL := loanAmount_nonneg i hhp hpct
  have hr := monthlyRate_nonneg i hmr
  have hnp := numPayments_pos i hterm
  obtain ⟨hLrP, hP⟩ := monthlyMortgage_ge i hL hr hnp
  have htax : 0 ≤ monthlyPropertyTax i := by
    unfold monthlyPropertyTax
    positivity
  have hins' : 0 ≤ monthlyInsurance i := by
    unfold monthlyInsurance
    positivity
  have hmn : 0 ≤ s.currentHomeValue * (i.maintenancePct / 100) / 12 := by positivity
  have hint : 0 ≤ s.remainingBalance * monthlyRate i := mul_nonneg hb0 hr
  refine ⟨?_, ?_, ?_⟩
  · rw [monthStep_cumulativeBuyCost_eq]
    linarith
  · rw [monthStep_cumulativeRentCost]
    linarith
  · rw [monthStep_cumulativeTrueBuyCost]
    linarith

lemma iter_good_cum_mono (hn : NonnegInputs i) (hpct : i.downPaymentPct ≤ 100)
    (hterm : 1 ≤ i.loanTermYears) (m : ℕ) (s : SimState) (hs : GoodState i s) :
    GoodState i ((monthStep i)^[m] s) ∧
      s.cumulativeBuyCost ≤ ((monthStep i)^[m] s).cumulativeBuyCost ∧
      s.cumulativeRentCost ≤ ((monthStep i)^[m] s).cumulativeRentCost ∧
      s.cumulativeTrueBuyCost ≤ ((monthStep i)^[m] s).cumulativeTrueBuyCost := by
  induction m generalizing s with
  | zero => exact ⟨hs, le_refl _, le_refl _, le_refl _⟩
  | succ m ih =>
      rw [Function.iterate_succ_apply]
      obtain ⟨hg, h1, h2, h3⟩ := ih (monthStep i s) (monthStep_good hn hpct hterm s hs)
      obtain ⟨k1, k2, k3⟩ := monthStep_cum_mono hn hpct hterm s hs
      exact ⟨hg, le_trans k1 h1, le_trans k2 h2, le_trans k3 h3⟩

lemma simYears_good (hn : NonnegInputs i) (hpct : i.downPaymentPct ≤ 100)
    (hterm : 1 ≤ i.loanTermYears) (y : ℕ) : GoodState i (simYears i y) := by
  obtain ⟨hhp, hdp, hmr, htx, hins, hmnt, hhoa, happ, hrent, hri, hinv⟩ := hn
  have hfa : 0 ≤ 1 + annualInvestment i := by
    unfold annualInvestment
    positivity
  have hfp : 0 ≤ 1 + annualAppreciation i := by
    unfold annualAppreciation
    positivity
  have hfr : 0 ≤ 1 + annualRentIncrease i := by
    unfold annualRentIncrease
    positivity
  induction y with
  | zero =>
      refine ⟨?_, le_refl _, hhp, hrent, le_refl 0, le_refl 0⟩
      exact loanAmount_nonneg i hhp hpct
  | succ y ih =>
      have hiter := iter_good_cum_mono ⟨hhp, hdp, hmr, htx, hins, hmnt, hhoa, happ,
        hrent, hri, hinv⟩ hpct hterm 12 (simYears i y) ih
      obtain ⟨⟨g1, g2, g3, g4, g5, g6⟩, -, -, -⟩ := hiter
      refine ⟨?_, ?_, ?_, ?_, ?_, ?_⟩
      · rw [show simYears i (y + 1) = yearStep i (y + 1) (simYears i y) from rfl,
          yearStep_remainingBalance]
        exact g1
      · rw [show simYears i (y + 1) = yearStep i (y + 1) (simYears i y) from rfl,
          yearStep_remainingBalance]
        exact g2
      · rw [show simYears i (y + 1) = yearStep i (y + 1) (simYears i y) from rfl,
          yearStep_currentHomeValue]
        exact mul_nonneg g3 hfp
      · rw [show simYears i (y + 1) = yearStep i (y + 1) (simYears i y) from rfl,
          yearStep_currentRent]
        exact mul_nonneg g4 hfr
      · rw [show simYears i (y + 1) = yearStep i (y + 1) (simYears i y) from rfl,
          yearStep_rentSavings]
        exact mul_nonneg g5 hfa
      · rw [show simYears i (y + 1) = yearStep i (y + 1) (simYears i y) from rfl,
          yearStep_buySavings]
        exact mul_nonneg g6 hfa

lemma simYears_cum_mono (hn : NonnegInputs i) (hpct : i.downPaymentPct ≤ 100)
    (hterm : 1 ≤ i.loanTermYears) (y : ℕ) :
    (simYears i y).cumulativeBuyCost ≤ (simYears i (y + 1)).cumulativeBuyCost ∧
      (simYears i y).cumulativeRentCost ≤ (simYears i (y + 1)).cumulativeRentCost ∧
      (simYears i y).cumulativeTrueBuyCost ≤ (simYears i (y + 1)).cumulativeTrueBuyCost := by
  have hgood := simYears_good hn hpct hterm y
  obtain ⟨-, h1, h2, h3⟩ := iter_good_cum_mono hn hpct hterm 12 (simYears i y) hgood
  rw [show simYears i (y + 1) = yearStep i (y + 1) (simYears i y) from rfl,
    yearStep_cumulativeBuyCost, yearStep_cumulativeRentCost, yearStep_cumulativeTrueBuyCost]
  exact ⟨h1, h2, h3⟩

lemma simYears_cumBuy_ge_downPayment (hn : NonnegInputs i) (hpct : i.downPaymentPct ≤ 100)
    (hterm : 1 ≤ i.loanTermYears) (y : ℕ) :
    downPayment i ≤ (simYears i y).cumulativeBuyCost := by
  induction y with
  | zero => exact le_refl _
  | succ y ih => exact le_trans ih (simYears_cum_mono hn hpct hterm y).1

end Invariants

section PrincipalAccounting

variable (i : Inputs)

lemma simMonth_succ (y m : ℕ) : simMonth i y (m + 1) = monthStep i (simMonth i y m) := by
  rw [simMonth, simMonth, Function.iterate_succ_apply']

lemma simMonth_zero (y : ℕ) : simMonth i y 0 = simYears i y := rfl

lemma simYears_succ_cum_fields (y : ℕ) :
    (simYears i (y + 1)).cumulativeBuyCost = (simMonth i y 12).cumulativeBuyCost ∧
      (simYears i (y + 1)).cumulativeRentCost = (simMonth i y 12).cumulativeRentCost ∧
      (simYears i (y + 1)).cumulativeTrueBuyCost = (simMonth i y 12).cumulativeTrueBuyCost :=
  ⟨rfl, rfl, rfl⟩

lemma cum_diff_step (y m : ℕ)
    (h : (simMonth i y m).cumulativeBuyCost - (simMonth i y m).cumulativeTrueBuyCost =
      downPayment i + principalPaid i (12 * y + m)) :
    (simMonth i y (m + 1)).cumulativeBuyCost - (simMonth i y (m + 1)).cumulativeTrueBuyCost =
      downPayment i + principalPaid i (12 * y + (m + 1)) := by
  rw [simMonth_succ, monthStep_cumulativeBuyCost_eq, monthStep_cumulativeTrueBuyCost,
    show 12 * y + (m + 1) = (12 * y + m) + 1 from rfl, principalPaid,
    simMonth_remainingBalance]
  linarith

lemma cum_diff (y : ℕ) : ∀ m : ℕ,
    (simMonth i y m).cumulativeBuyCost - (simMonth i y m).cumulativeTrueBuyCost =
      downPayment i + principalPaid i (12 * y + m) := by
  induction y with
  | zero =>
      intro m
      induction m with
      | zero =>
          show (initState i).cumulativeBuyCost - (initState i).cumulativeTrueBuyCost = _
          rw [show (12 : ℕ) * 0 + 0 = 0 from rfl, principalPaid]
          show downPayment i - 0 = downPayment i + 0
          ring
      | succ m ihm => exact cum_diff_step i 0 m ihm
  | succ y ih =>
      intro m
      induction m with
      | zero =>
          obtain ⟨e1, -, e3⟩ := simYears_succ_cum_fields i y
          rw [simMonth_zero] at *
          rw [e1, e3, show 12 * (y + 1) + 0 = 12 * y + 12 by ring]
          exact ih 12
      | succ m ihm => exact cum_diff_step i (y + 1) m ihm

lemma principalPaid_nonneg (hL : 0 ≤ loanAmount i) (hr : 0 ≤ monthlyRate i)
    (hnp : numPayments i ≠ 0) (t : ℕ) : 0 ≤ principalPaid i t := by
  obtain ⟨hLrP, hP⟩ := monthlyMortgage_ge i hL hr hnp
  induction t with
  | zero => exact le_refl _
  | succ t ih =>
      rw [principalPaid]
      obtain ⟨hb0, hbL⟩ := balSeq_bounds i hL hr hnp t
      have : balSeq i t * monthlyRate i ≤ loanAmount i * monthlyRate i :=
        mul_le_mul_of_nonneg_right hbL hr
      linarith

end PrincipalAccounting

section Breakeven

variable (i : Inputs)

lemma simYears_breakevenYear_zero : (simYears i 0).breakevenYear = none := rfl

lemma breakeven_mono (y k : ℕ) (h : (simYears i y).breakevenYear = some k) :
    (simYears i (y + 1)).breakevenYear = some k := by
  rw [simYears_succ_breakevenYear, if_neg, h]
  rintro ⟨hc, -⟩
  rw [h] at hc
  exact Option.some_ne_none k hc

lemma breakeven_persist (y k : ℕ) (h : (simYears i y).breakevenYear = some k) (m : ℕ) :
    (simYears i (y + m)).breakevenYear = some k := by
  induction m with
  | zero => exact h
  | succ m ih => exact breakeven_mono i (y + m) k ih

lemma breakeven_char (y : ℕ) :
    ((simYears i y).breakevenYear = none ∧ ∀ k, 1 ≤ k → k ≤ y → ¬ beats i k) ∨
      (∃ k, (simYears i y).breakevenYear = some k ∧ 1 ≤ k ∧ k ≤ y ∧ beats i k ∧
        ∀ j, 1 ≤ j → j < k → ¬ beats i j) := by
  induction y with
  | zero =>
      left
      exact ⟨rfl, fun k h1 h2 => absurd (Nat.le_trans h1 h2) (by omega)⟩
  | succ y ih =>
      rcases ih with ⟨hnone, hall⟩ | ⟨k, hk, h1, h2, h3, h4⟩
      · by_cases hb : beats i (y + 1)
        · right
          refine ⟨y + 1, ?_, by omega, le_refl _, hb, fun j hj1 hj2 => hall j hj1 (by omega)⟩
          rw [simYears_succ_breakevenYear, if_pos ⟨hnone, hb⟩]
        · left
          constructor
          · rw [simYears_succ_breakevenYear, if_neg, hnone]
            rintro ⟨-, hc⟩
            exact hb hc
          · intro k hk1 hk2
            rcases Nat.lt_or_ge k (y + 1) with h | h
            · exact hall k hk1 (by omega)
            · have : k = y + 1 := by omega
              rw [this]
              exact hb
      · right
        exact ⟨k, breakeven_mono i y k hk, h1, by omega, h3, h4⟩

end Breakeven

section Summary

variable (i : Inputs)

lemma finalState_getLast (h : 1 ≤ i.yearsToAnalyze) :
    (finalState i).yearlyData.getLast? = some (mkSnap i i.yearsToAnalyze) := by
  obtain ⟨y, hy⟩ : ∃ y, i.yearsToAnalyze = y + 1 := ⟨i.yearsToAnalyze - 1, by omega⟩
  rw [finalState, hy, simYears_succ_yearlyData, ← hy, List.getLast?_concat]

lemma calculate_some (h : 1 ≤ i.yearsToAnalyze) :
    calculate i = some
      { monthlyMortgage := monthlyMortgage i
        monthlyBuyTotal := monthlyBuyTotal i
        monthlyRentTotal := i.monthlyRent
        breakevenYear := (finalState i).breakevenYear
        yearlyData := (finalState i).yearlyData
        totalBuyCost := (finalState i).cumulativeBuyCost
        totalRentCost := (finalState i).cumulativeRentCost
        buyNetWorthFinal := (mkSnap i i.yearsToAnalyze).buyNetWorth
        rentNetWorthFinal := (mkSnap i i.yearsToAnalyze).rentNetWorth
        recommendation :=
          if (mkSnap i i.yearsToAnalyze).buyNetWorth > (mkSnap i i.yearsToAnalyze).rentNetWorth
          then .buy else .rent
        downPayment := downPayment i } := by
  have hlast := finalState_getLast i h
  simp only [calculate, hlast]

lemma calculate_none (h : i.yearsToAnalyze = 0) : calculate i = none := by
  unfold calculate finalState
  rw [h]
  rfl

end Summary

/-- Inputs used to witness the claims at a concrete record: zero mortgage
rate, a one-year term and a one-year horizon keep every number small. -/
def iW : Inputs :=
  { homePrice := 120000
    downPaymentPct := 20
    mortgageRate := 0
    loanTermYears := 1
    propertyTaxRate := 0
    homeInsurance := 0
    maintenancePct := 0
    hoaMonthly := 0
    homeAppreciation := 0
    monthlyRent := 100
    rentIncrease := 0
    investmentReturn := 0
    yearsToAnalyze := 1 }

/-- Witness record with a nonzero mortgage rate (12% monthly, so the
amortization powers stay small). -/
def iW2 : Inputs :=
  { homePrice := 200
    downPaymentPct := 0
    mortgageRate := 1200
    loanTermYears := 1
    propertyTaxRate := 0
    homeInsurance := 0
    maintenancePct := 0
    hoaMonthly := 0
    homeAppreciation := 0
    monthlyRent := 0
    rentIncrease := 0
    investmentReturn := 0
    yearsToAnalyze := 1 }

/-- Witness record with a zero-year horizon. -/
def iW0 : Inputs :=
  { iW with yearsToAnalyze := 0 }

/-- Claim C1: for `yearsToAnalyze ≥ 1` the engine returns a result whose
recommendation is `buy` exactly when the last snapshot's `buyNetWorth`
strictly exceeds its `rentNetWorth`, is `rent` otherwise (ties included),
and is never `neutral`. -/
theorem C1_recommendation_last_snapshot (i : Inputs) (h : 1 ≤ i.yearsToAnalyze) :
    ∃ r snap, calculate i = some r ∧ (finalState i).yearlyData.getLast? = some snap ∧
      (r.recommendation = Verdict.buy ↔ snap.rentNetWorth < snap.buyNetWorth) ∧
      (r.recommendation = Verdict.rent ↔ ¬ snap.rentNetWorth < snap.buyNetWorth) ∧
      r.recommendation ≠ Verdict.neutral := by
  refine ⟨_, mkSnap i i.yearsToAnalyze, calculate_some i h, finalState_getLast i h, ?_, ?_, ?_⟩
  · by_cases hlt :
        (mkSnap i i.yearsToAnalyze).rentNetWorth < (mkSnap i i.yearsToAnalyze).buyNetWorth
    · simp [hlt]
    · simp [hlt]
  · by_cases hlt :
        (mkSnap i i.yearsToAnalyze).rentNetWorth < (mkSnap i i.yearsToAnalyze).buyNetWorth
    · simp [hlt]
    · simp [hlt]
  · by_cases hlt :
        (mkSnap i i.yearsToAnalyze).rentNetWorth < (mkSnap i i.yearsToAnalyze).buyNetWorth
    · simp [hlt]
    · simp [hlt]

/-- Witness for C1 at the concrete record `iW`. -/
theorem C1_recommendation_last_snapshot_witness :
    1 ≤ Inputs.yearsToAnalyze iW ∧
      (∃ r snap, calculate iW = some r ∧ (finalState iW).yearlyData.getLast? = some snap ∧
        (r.recommendation = Verdict.buy ↔ snap.rentNetWorth < snap.buyNetWorth) ∧
        (r.recommendation = Verdict.rent ↔ ¬ snap.rentNetWorth < snap.buyNetWorth) ∧
        r.recommendation ≠ Verdict.neutral) :=
  ⟨by decide, C1_recommendation_last_snapshot iW (by decide)⟩

/-- Claim C2: every recorded snapshot's `buyNetWorth` is exactly the home
equity `currentHomeValue - remainingBalance - 0.06 * currentHomeValue` of
the end-of-year state, and its `rentNetWorth` is exactly the compounded
down payment plus the rent-side savings pool, with no down-payment
subtraction. -/
theorem C2_snapshot_net_worth (i : Inputs) (k : ℕ) (snap : YearlySnapshot)
    (h : (finalState i).yearlyData[k]? = some snap) :
    snap.buyNetWorth = (simYears i (k + 1)).currentHomeValue -
        (simYears i (k + 1)).remainingBalance -
        (6 / 100 : ℚ) * (simYears i (k + 1)).currentHomeValue ∧
      snap.rentNetWorth = downPayment i * (1 + i.investmentReturn / 100) ^ (k + 1) +
        (simYears i (k + 1)).rentSavings := by
  have hk : k < i.yearsToAnalyze := by
    by_contra hk
    push_neg at hk
    have hnone : (finalState i).yearlyData[k]? = none := by
      refine List.getElem?_eq_none ?_
      rw [finalState, simYears_yearlyData_length]
      omega
    rw [hnone] at h
    exact absurd h (by simp)
  rw [finalState, simYears_yearlyData_getElem i _ k hk] at h
  have hsnap : snap = mkSnap i (k + 1) := by
    injection h with h'
    exact h'.symm
  subst hsnap
  constructor
  · show (simYears i (k + 1)).currentHomeValue - (simYears i (k + 1)).remainingBalance -
        (simYears i (k + 1)).currentHomeValue * (6 / 100 : ℚ) = _
    ring
  · rfl

/-- Witness for C2 at the concrete record `iW`, year 1. -/
theorem C2_snapshot_net_worth_witness :
    (finalState iW).yearlyData[0]? = some (mkSnap iW 1) ∧
      ((mkSnap iW 1).buyNetWorth = (simYears iW 1).currentHomeValue -
          (simYears iW 1).remainingBalance -
          (6 / 100 : ℚ) * (simYears iW 1).currentHomeValue ∧
        (mkSnap iW 1).rentNetWorth =
          downPayment iW * (1 + Inputs.investmentReturn iW / 100) ^ 1 +
            (simYears iW 1).rentSavings) :=
  ⟨simYears_yearlyData_getElem iW 1 0 (by decide),
    C2_snapshot_net_worth iW 0 (mkSnap iW 1) (simYears_yearlyData_getElem iW 1 0 (by decide))⟩

/-- Claim C8: a positive horizon yields a result whose `yearlyData` has
length `yearsToAnalyze` with year fields `1, 2, ...` in order, while a
zero horizon yields an empty sequence and a runtime failure (`none`) in
place of a summary. -/
theorem C8_horizon_length (i : Inputs) :
    (1 ≤ i.yearsToAnalyze → ∃ r, calculate i = some r ∧
      r.yearlyData.length = i.yearsToAnalyze ∧
      ∀ k snap, r.yearlyData[k]? = some snap → snap.year = k + 1) ∧
    (i.yearsToAnalyze = 0 → calculate i = none ∧ (finalState i).yearlyData = []) := by
  constructor
  · intro h
    refine ⟨_, calculate_some i h, ?_, ?_⟩
    · show (finalState i).yearlyData.length = _
      rw [finalState, simYears_yearlyData_length]
    · intro k snap hk
      have hk' : k < i.yearsToAnalyze := by
        by_contra hc
        push_neg at hc
        have hnone : (finalState i).yearlyData[k]? = none := by
          refine List.getElem?_eq_none ?_
          rw [finalState, simYears_yearlyData_length]
          omega
        rw [show CalculationResult.yearlyData _ = (finalState i).yearlyData from rfl,
          hnone] at hk
        exact absurd hk (by simp)
      rw [show CalculationResult.yearlyData _ = (finalState i).yearlyData from rfl,
        finalState, simYears_yearlyData_getElem i _ k hk'] at hk
      injection hk with hk
      rw [← hk]
      rfl
  · intro h
    refine ⟨calculate_none i h, ?_⟩
    rw [finalState, h]
    rfl

/-- Witness for C8 at the concrete records `iW` (one-year horizon) and
`iW0` (zero horizon). -/
theorem C8_horizon_length_witness :
    (1 ≤ Inputs.yearsToAnalyze iW ∧
      (∃ r, calculate iW = some r ∧ r.yearlyData.length = Inputs.yearsToAnalyze iW ∧
        ∀ k snap, r.yearlyData[k]? = some snap → snap.year = k + 1)) ∧
      (Inputs.yearsToAnalyze iW0 = 0 ∧
        (calculate iW0 = none ∧ (finalState iW0).yearlyData = [])) :=
  ⟨⟨by decide, (C8_horizon_length iW).1 (by decide)⟩,
    ⟨by decide, (C8_horizon_length iW0).2 (by decide)⟩⟩

/-- Claim C3: the monthly payment is `loanAmount / (loanTermYears * 12)`
when the mortgage rate is zero and the standard level-payment formula
otherwise; in the zero-rate case the balance falls by the constant payment
each month until it is floored at 0.  The first conjunct of the zero-rate
case ties the simulated balance to the month-indexed sequence `balSeq`. -/
theorem C3_monthly_mortgage_formula (i : Inputs) :
    (i.mortgageRate = 0 →
      monthlyMortgage i = loanAmount i / ((i.loanTermYears * 12 : ℕ) : ℚ) ∧
      (∀ y m, (simMonth i y m).remainingBalance = balSeq i (12 * y + m)) ∧
      (∀ t, monthlyMortgage i ≤ balSeq i t →
        balSeq i (t + 1) = balSeq i t - monthlyMortgage i) ∧
      (∀ t, balSeq i t ≤ monthlyMortgage i → balSeq i (t + 1) = 0)) ∧
    (i.mortgageRate ≠ 0 →
      monthlyMortgage i = loanAmount i * (i.mortgageRate / 100 / 12) *
          (1 + i.mortgageRate / 100 / 12) ^ (i.loanTermYears * 12) /
        ((1 + i.mortgageRate / 100 / 12) ^ (i.loanTermYears * 12) - 1)) := by
  constructor
  · intro h0
    have hr0 : monthlyRate i = 0 := by
      rw [monthlyRate, h0]
      norm_num
    have hP : monthlyMortgage i = loanAmount i / ((i.loanTermYears * 12 : ℕ) : ℚ) := by
      rw [monthlyMortgage, if_pos hr0, numPayments]
    refine ⟨hP, fun y m => simMonth_remainingBalance i y m, ?_, ?_⟩
    · intro t ht
      rw [balSeq_succ, balStep, hr0, mul_zero, sub_zero]
      exact max_eq_right (by linarith)
    · intro t ht
      rw [balSeq_succ, balStep, hr0, mul_zero, sub_zero]
      exact max_eq_left (by linarith)
  · intro h0
    have hr0 : monthlyRate i ≠ 0 := by
      rw [monthlyRate]
      intro hc
      apply h0
      field_simp at hc
      exact hc
    rw [monthlyMortgage, if_neg hr0, numPayments, monthlyRate]
    ring

/-- Witness for C3 at the zero-rate record `iW` and nonzero-rate record
`iW2`. -/
theorem C3_monthly_mortgage_formula_witness :
    balSeq iW 1 = balSeq iW 0 - monthlyMortgage iW ∧
      monthlyMortgage iW2 = loanAmount iW2 * (Inputs.mortgageRate iW2 / 100 / 12) *
          (1 + Inputs.mortgageRate iW2 / 100 / 12) ^ (Inputs.loanTermYears iW2 * 12) /
        ((1 + Inputs.mortgageRate iW2 / 100 / 12) ^ (Inputs.loanTermYears iW2 * 12) - 1) :=
  ⟨((C3_monthly_mortgage_formula iW).1 rfl).2.2.1 0
      (by norm_num [monthlyMortgage, monthlyRate, numPayments, loanAmount, downPayment,
        balSeq, iW]),
    (C3_monthly_mortgage_formula iW2).2 (by norm_num [iW2])⟩

/-- Claim C4 (amended with `0 ≤ homePrice`, as the data model requires):
the simulated balance agrees with `balSeq`, which is non-increasing and
never negative, and once the horizon covers the term the balance is 0 from
month `numPayments` on. -/
theorem C4_balance_monotone_payoff (i : Inputs) (hhp : 0 ≤ i.homePrice)
    (hr : 0 ≤ i.mortgageRate) (hterm : 1 ≤ i.loanTermYears)
    (_hpl : 0 ≤ i.downPaymentPct) (hpu : i.downPaymentPct ≤ 100) :
    (∀ y m, (simMonth i y m).remainingBalance = balSeq i (12 * y + m)) ∧
      (∀ t, balSeq i (t + 1) ≤ balSeq i t) ∧
      (∀ t, 0 ≤ balSeq i t) ∧
      (numPayments i ≤ 12 * i.yearsToAnalyze →
        ∀ t, numPayments i ≤ t → balSeq i t = 0) := by
  have hL := loanAmount_nonneg i hhp hpu
  have hmr := monthlyRate_nonneg i hr
  have hnp := numPayments_pos i hterm
  refine ⟨fun y m => simMonth_remainingBalance i y m,
    fun t => balSeq_antitone i hL hmr hnp t,
    fun t => (balSeq_bounds i hL hmr hnp t).1, ?_⟩
  intro _ t ht
  obtain ⟨u, hu⟩ : ∃ u, t = numPayments i + u := ⟨t - numPayments i, by omega⟩
  rw [hu]
  exact balSeq_stays_zero i (monthlyMortgage_ge i hL hmr hnp).2 _
    (balSeq_at_numPayments i hmr hL hnp) u

/-- Witness for C4 at the concrete record `iW`. -/
theorem C4_balance_monotone_payoff_witness :
    (∀ y m, (simMonth iW y m).remainingBalance = balSeq iW (12 * y + m)) ∧
      (∀ t, balSeq iW (t + 1) ≤ balSeq iW t) ∧
      (∀ t, 0 ≤ balSeq iW t) ∧
      (numPayments iW ≤ 12 * Inputs.yearsToAnalyze iW →
        ∀ t, numPayments iW ≤ t → balSeq iW t = 0) :=
  C4_balance_monotone_payoff iW (by norm_num [iW]) (by norm_num [iW]) (by decide)
    (by norm_num [iW]) (by norm_num [iW])

/-- A record whose rate and percentage hypotheses match claim C4 as stated
but whose (negative) home price makes the balance increase. -/
def cex4 : Inputs :=
  { homePrice := -1200
    downPaymentPct := 0
    mortgageRate := 0
    loanTermYears := 1
    propertyTaxRate := 0
    homeInsurance := 0
    maintenancePct := 0
    hoaMonthly := 0
    homeAppreciation := 0
    monthlyRent := 0
    rentIncrease := 0
    investmentReturn := 0
    yearsToAnalyze := 1 }

/-- Counterexample to claim C4 as stated: at `cex4` every hypothesis of the
claim holds (`mortgageRate ≥ 0`, `loanTermYears ≥ 1`,
`0 ≤ downPaymentPct ≤ 100`) yet the balance strictly increases from month 1
to month 2 of the simulation. -/
theorem C4_cex :
    0 ≤ Inputs.mortgageRate cex4 ∧ 1 ≤ Inputs.loanTermYears cex4 ∧
      0 ≤ Inputs.downPaymentPct cex4 ∧ Inputs.downPaymentPct cex4 ≤ 100 ∧
      (simMonth cex4 0 1).remainingBalance < (simMonth cex4 0 2).remainingBalance := by
  have e0 : balSeq cex4 0 = -1200 := by
    rw [balSeq, Function.iterate_zero_apply]
    norm_num [loanAmount, downPayment, cex4]
  have eP : monthlyMortgage cex4 = -100 := by
    rw [monthlyMortgage, if_pos (by norm_num [monthlyRate, cex4])]
    norm_num [loanAmount, downPayment, numPayments, cex4]
  have er : monthlyRate cex4 = 0 := by norm_num [monthlyRate, cex4]
  have e1 : balSeq cex4 1 = 0 := by
    have h := balSeq_succ cex4 0
    rw [e0, balStep, eP, er] at h
    norm_num at h
    exact h
  have e2 : balSeq cex4 2 = 100 := by
    have h := balSeq_succ cex4 1
    rw [e1, balStep, eP, er] at h
    norm_num at h
    exact h
  refine ⟨by norm_num [cex4], by decide, by norm_num [cex4], by norm_num [cex4], ?_⟩
  rw [simMonth_remainingBalance, simMonth_remainingBalance]
  show balSeq cex4 1 < balSeq cex4 2
  rw [e1, e2]
  norm_num

/-- Claim C5: `breakevenYear` is the first year whose recorded snapshot has
`buyNetWorth > rentNetWorth` (`beats`), is `none` exactly when no year within
the horizon does, and once set is never changed by later years. -/
theorem C5_breakeven_first_crossing (i : Inputs) :
    (∀ k, (finalState i).breakevenYear = some k →
      1 ≤ k ∧ k ≤ i.yearsToAnalyze ∧ beats i k ∧ ∀ j, 1 ≤ j → j < k → ¬ beats i j) ∧
    ((finalState i).breakevenYear = none ↔
      ∀ k, 1 ≤ k → k ≤ i.yearsToAnalyze → ¬ beats i k) ∧
    (∀ y k, (simYears i y).breakevenYear = some k →
      ∀ m, (simYears i (y + m)).breakevenYear = some k) := by
  refine ⟨?_, ⟨?_, ?_⟩, fun y k h m => breakeven_persist i y k h m⟩
  · intro k hk
    rcases breakeven_char i i.yearsToAnalyze with ⟨hnone, -⟩ | ⟨k', hk', h1, h2, h3, h4⟩
    · rw [finalState] at hk
      rw [hnone] at hk
      exact absurd hk (by simp)
    · rw [finalState] at hk
      rw [hk'] at hk
      injection hk with hkk
      subst hkk
      exact ⟨h1, h2, h3, h4⟩
  · intro hnone k h1 h2
    rcases breakeven_char i i.yearsToAnalyze with ⟨-, hall⟩ | ⟨k', hk', g1, g2, g3, -⟩
    · exact hall k h1 h2
    · rw [finalState] at hnone
      rw [hnone] at hk'
      exact absurd hk' (by simp)
  · intro hall
    rcases breakeven_char i i.yearsToAnalyze with ⟨hnone, -⟩ | ⟨k', hk', g1, g2, g3, -⟩
    · rw [finalState]
      exact hnone
    · exact absurd g3 (hall k' g1 g2)

/-- Witness for C5 at the concrete record `iW0` (zero-year horizon, for
which the crossing condition is vacuous and the breakeven year is `none`). -/
theorem C5_breakeven_first_crossing_witness : (finalState iW0).breakevenYear = none :=
  (C5_breakeven_first_crossing iW0).2.1.mpr
    (fun _ h1 h2 => absurd (Nat.le_trans h1 h2) (by decide))

/-- Claim C6: each month the positive cost differential goes to the
renter's pool scaled once by `(1 + investmentReturn/100/12)` with the
buyer's pool untouched, and a non-positive differential goes (negated) to
the buyer's pool under the same factor; at year end both pools are scaled
once by the full annual factor `(1 + investmentReturn/100)`. -/
theorem C6_two_layer_compounding (i : Inputs) :
    (∀ y m,
      (0 < simDiff i (simMonth i y m) →
        (simMonth i y (m + 1)).rentSavings = (simMonth i y m).rentSavings +
          simDiff i (simMonth i y m) * (1 + i.investmentReturn / 100 / 12) ∧
        (simMonth i y (m + 1)).buySavings = (simMonth i y m).buySavings) ∧
      (¬ 0 < simDiff i (simMonth i y m) →
        (simMonth i y (m + 1)).buySavings = (simMonth i y m).buySavings +
          (-simDiff i (simMonth i y m)) * (1 + i.investmentReturn / 100 / 12) ∧
        (simMonth i y (m + 1)).rentSavings = (simMonth i y m).rentSavings)) ∧
    (∀ y, (simYears i (y + 1)).rentSavings =
        (simMonth i y 12).rentSavings * (1 + i.investmentReturn / 100) ∧
      (simYears i (y + 1)).buySavings =
        (simMonth i y 12).buySavings * (1 + i.investmentReturn / 100)) := by
  have hfac : annualInvestment i / 12 = i.investmentReturn / 100 / 12 := rfl
  constructor
  · intro y m
    constructor
    · intro hd
      rw [simMonth_succ, monthStep_rentSavings, monthStep_buySavings, if_pos hd, if_pos hd,
        hfac]
      exact ⟨rfl, rfl⟩
    · intro hd
      rw [simMonth_succ, monthStep_rentSavings, monthStep_buySavings, if_neg hd, if_neg hd,
        hfac]
      exact ⟨rfl, rfl⟩
  · intro y
    rw [show simYears i (y + 1) = yearStep i (y + 1) (simYears i y) from rfl,
      yearStep_rentSavings, yearStep_buySavings]
    exact ⟨rfl, rfl⟩

/-- Witness for C6 at the concrete record `iW`, first month (where buying
costs more than renting, so the differential is invested on the rent
side). -/
theorem C6_two_layer_compounding_witness :
    0 < simDiff iW (simMonth iW 0 0) ∧
      (simMonth iW 0 1).rentSavings = (simMonth iW 0 0).rentSavings +
        simDiff iW (simMonth iW 0 0) * (1 + Inputs.investmentReturn iW / 100 / 12) ∧
      (simMonth iW 0 1).buySavings = (simMonth iW 0 0).buySavings := by
  have hd : 0 < simDiff iW (simMonth iW 0 0) := by
    have h0 : simMonth iW 0 0 = initState iW := rfl
    rw [h0]
    norm_num [simDiff, initState, monthlyMortgage, monthlyRate, numPayments, loanAmount,
      downPayment, monthlyPropertyTax, monthlyInsurance, iW]
  exact ⟨hd, ((C6_two_layer_compounding iW).1 0 0).1 hd⟩

lemma finalState_getElem_inv (i : Inputs) (k : ℕ) (snap : YearlySnapshot)
    (h : (finalState i).yearlyData[k]? = some snap) :
    k < i.yearsToAnalyze ∧ snap = mkSnap i (k + 1) := by
  have hk : k < i.yearsToAnalyze := by
    by_contra hk
    push_neg at hk
    have hnone : (finalState i).yearlyData[k]? = none := by
      refine List.getElem?_eq_none ?_
      rw [finalState, simYears_yearlyData_length]
      omega
    rw [hnone] at h
    exact absurd h (by simp)
  rw [finalState, simYears_yearlyData_getElem i _ k hk] at h
  refine ⟨hk, ?_⟩
  injection h with h
  exact h.symm

section Degenerate

variable (i : Inputs)

/-- For records whose carrying costs and rent are all zero, whose rate is
zero and whose payment is non-positive, the cumulative counters and the
rent-side pool admit a closed form (used to evaluate the counterexample
records without unfolding the 12-month loop numerically). -/
lemma degenerate_step (htax : i.propertyTaxRate = 0) (hins : i.homeInsurance = 0)
    (hmnt : i.maintenancePct = 0) (hhoa : i.hoaMonthly = 0) (hr0 : monthlyRate i = 0)
    (hP : monthlyMortgage i ≤ 0) (y m : ℕ)
    (h1 : (simMonth i y m).cumulativeBuyCost =
      downPayment i + ((12 * y + m : ℕ) : ℚ) * monthlyMortgage i)
    (h2 : (simMonth i y m).cumulativeRentCost = 0)
    (h3 : (simMonth i y m).cumulativeTrueBuyCost = 0)
    (h4 : (simMonth i y m).currentRent = 0)
    (h5 : (simMonth i y m).rentSavings = 0) :
    (simMonth i y (m + 1)).cumulativeBuyCost =
        downPayment i + ((12 * y + (m + 1) : ℕ) : ℚ) * monthlyMortgage i ∧
      (simMonth i y (m + 1)).cumulativeRentCost = 0 ∧
      (simMonth i y (m + 1)).cumulativeTrueBuyCost = 0 ∧
      (simMonth i y (m + 1)).currentRent = 0 ∧
      (simMonth i y (m + 1)).rentSavings = 0 := by
  have htax' : monthlyPropertyTax i = 0 := by
    rw [monthlyPropertyTax, htax]
    norm_num
  have hins' : monthlyInsurance i = 0 := by
    rw [monthlyInsurance, hins]
    norm_num
  have hdiff : simDiff i (simMonth i y m) = monthlyMortgage i := by
    rw [simDiff, htax', hins', hmnt, hhoa, h4]
    norm_num
  refine ⟨?_, ?_, ?_, ?_, ?_⟩
  · rw [simMonth_succ, monthStep_cumulativeBuyCost_eq, h1, htax', hins', hmnt, hhoa]
    push_cast
    ring
  · rw [simMonth_succ, monthStep_cumulativeRentCost, h2, h4]
    ring
  · rw [simMonth_succ, monthStep_cumulativeTrueBuyCost, h3, hr0, htax', hins', hmnt, hhoa]
    norm_num
  · rw [simMonth_succ, monthStep_currentRent]
    exact h4
  · rw [simMonth_succ, monthStep_rentSavings, if_neg, h5]
    rw [hdiff]
    exact not_lt.mpr hP

lemma degenerate_sim (htax : i.propertyTaxRate = 0) (hins : i.homeInsurance = 0)
    (hmnt : i.maintenancePct = 0) (hhoa : i.hoaMonthly = 0) (hrent : i.monthlyRent = 0)
    (hr0 : monthlyRate i = 0) (hP : monthlyMortgage i ≤ 0) (y : ℕ) : ∀ m : ℕ,
    (simMonth i y m).cumulativeBuyCost =
        downPayment i + ((12 * y + m : ℕ) : ℚ) * monthlyMortgage i ∧
      (simMonth i y m).cumulativeRentCost = 0 ∧
      (simMonth i y m).cumulativeTrueBuyCost = 0 ∧
      (simMonth i y m).currentRent = 0 ∧
      (simMonth i y m).rentSavings = 0 := by
  induction y with
  | zero =>
      intro m
      induction m with
      | zero =>
          refine ⟨?_, rfl, rfl, hrent, rfl⟩
          show downPayment i = downPayment i + ((0 : ℕ) : ℚ) * monthlyMortgage i
          norm_num
      | succ m ihm =>
          obtain ⟨h1, h2, h3, h4, h5⟩ := ihm
          exact degenerate_step i htax hins hmnt hhoa hr0 hP 0 m h1 h2 h3 h4 h5
  | succ y ih =>
      intro m
      induction m with
      | zero =>
          obtain ⟨h1, h2, h3, h4, h5⟩ := ih 12
          have e1 : (simMonth i (y + 1) 0).cumulativeBuyCost =
              (simMonth i y 12).cumulativeBuyCost := rfl
          have e2 : (simMonth i (y + 1) 0).cumulativeRentCost =
              (simMonth i y 12).cumulativeRentCost := rfl
          have e3 : (simMonth i (y + 1) 0).cumulativeTrueBuyCost =
              (simMonth i y 12).cumulativeTrueBuyCost := rfl
          have e4 : (simMonth i (y + 1) 0).currentRent =
              (simMonth i y 12).currentRent * (1 + annualRentIncrease i) := rfl
          have e5 : (simMonth i (y + 1) 0).rentSavings =
              (simMonth i y 12).rentSavings * (1 + annualInvestment i) := rfl
          refine ⟨?_, ?_, ?_, ?_, ?_⟩
          · rw [e1, h1]
            push_cast
            ring
          · rw [e2, h2]
          · rw [e3, h3]
          · rw [e4, h4, zero_mul]
          · rw [e5, h5, zero_mul]
      | succ m ihm =>
          obtain ⟨h1, h2, h3, h4, h5⟩ := ihm
          exact degenerate_step i htax hins hmnt hhoa hr0 hP (y + 1) m h1 h2 h3 h4 h5

end Degenerate

/-- Claim C7 (amended with `downPaymentPct ≤ 100` and a positive loan term,
both part of the documented input domain): every snapshot has
`cumulativeTrueBuyCost ≤ cumulativeBuyCost`, and equality forces the
principal paid to date to be 0. -/
theorem C7_true_cost_dominance (i : Inputs) (hn : NonnegInputs i)
    (hpct : i.downPaymentPct ≤ 100) (hterm : 1 ≤ i.loanTermYears) (k : ℕ)
    (snap : YearlySnapshot) (h : (finalState i).yearlyData[k]? = some snap) :
    snap.cumulativeTrueBuyCost ≤ snap.cumulativeBuyCost ∧
      (snap.cumulativeTrueBuyCost = snap.cumulativeBuyCost →
        principalPaid i (12 * (k + 1)) = 0) := by
  obtain ⟨hhp, hdp, hmr, -, -, -, -, -, -, -, -⟩ := hn
  have hL := loanAmount_nonneg i hhp hpct
  have hr := monthlyRate_nonneg i hmr
  have hnp := numPayments_pos i hterm
  obtain ⟨hk, rfl⟩ := finalState_getElem_inv i k snap h
  have hdiff := cum_diff i (k + 1) 0
  have hpp := principalPaid_nonneg i hL hr hnp (12 * (k + 1) + 0)
  have hdp0 := downPayment_nonneg i hhp hdp
  have e1 : (mkSnap i (k + 1)).cumulativeBuyCost =
      (simMonth i (k + 1) 0).cumulativeBuyCost := rfl
  have e3 : (mkSnap i (k + 1)).cumulativeTrueBuyCost =
      (simMonth i (k + 1) 0).cumulativeTrueBuyCost := rfl
  constructor
  · rw [e1, e3]
    linarith
  · intro heq
    rw [e1, e3] at heq
    have hz : principalPaid i (12 * (k + 1) + 0) = 0 := by linarith
    exact hz

/-- Witness for C7 at the concrete record `iW`, year 1. -/
theorem C7_true_cost_dominance_witness :
    NonnegInputs iW ∧ Inputs.downPaymentPct iW ≤ 100 ∧ 1 ≤ Inputs.loanTermYears iW ∧
      ((mkSnap iW 1).cumulativeTrueBuyCost ≤ (mkSnap iW 1).cumulativeBuyCost ∧
        ((mkSnap iW 1).cumulativeTrueBuyCost = (mkSnap iW 1).cumulativeBuyCost →
          principalPaid iW (12 * 1) = 0)) :=
  ⟨by norm_num [NonnegInputs, iW], by norm_num [iW], by decide,
    C7_true_cost_dominance iW (by norm_num [NonnegInputs, iW]) (by norm_num [iW])
      (by decide) 0 (mkSnap iW 1) (simYears_yearlyData_getElem iW 1 0 (by decide))⟩

/-- A record with every rate and currency input non-negative but a down
payment above 100% of the home price, giving a negative loan and a negative
monthly payment. -/
def cex7 : Inputs :=
  { homePrice := 100
    downPaymentPct := 200
    mortgageRate := 0
    loanTermYears := 1
    propertyTaxRate := 0
    homeInsurance := 0
    maintenancePct := 0
    hoaMonthly := 0
    homeAppreciation := 0
    monthlyRent := 0
    rentIncrease := 0
    investmentReturn := 0
    yearsToAnalyze := 3 }

/-- Counterexample to claim C7 as stated: at `cex7` every rate and currency
input is non-negative, yet year 3's snapshot has
`cumulativeBuyCost < cumulativeTrueBuyCost`. -/
theorem C7_cex :
    NonnegInputs cex7 ∧ 1 ≤ Inputs.loanTermYears cex7 ∧
      (finalState cex7).yearlyData[2]? = some (mkSnap cex7 3) ∧
      ¬ (mkSnap cex7 3).cumulativeTrueBuyCost ≤ (mkSnap cex7 3).cumulativeBuyCost := by
  have hr0 : monthlyRate cex7 = 0 := by norm_num [monthlyRate, cex7]
  have hP : monthlyMortgage cex7 = -100 / 12 := by
    rw [monthlyMortgage, if_pos hr0]
    norm_num [loanAmount, downPayment, numPayments, cex7]
  obtain ⟨d1, -, d3, -, -⟩ :=
    degenerate_sim cex7 rfl rfl rfl rfl rfl hr0 (by rw [hP]; norm_num) 3 0
  have e1 : (mkSnap cex7 3).cumulativeBuyCost = (simMonth cex7 3 0).cumulativeBuyCost := rfl
  have e3 : (mkSnap cex7 3).cumulativeTrueBuyCost =
      (simMonth cex7 3 0).cumulativeTrueBuyCost := rfl
  refine ⟨by norm_num [NonnegInputs, cex7], by decide,
    simYears_yearlyData_getElem cex7 3 2 (by decide), ?_⟩
  rw [e1, e3, d1, d3, hP]
  norm_num [downPayment, cex7]

/-- Claim C9 (amended with `downPaymentPct ≤ 100` and a positive loan term,
both part of the documented input domain): the three cumulative fields are
non-decreasing from each snapshot to the next, and every snapshot's
`cumulativeBuyCost` is at least the down payment. -/
theorem C9_cumulative_monotone (i : Inputs) (hn : NonnegInputs i)
    (hpct : i.downPaymentPct ≤ 100) (hterm : 1 ≤ i.loanTermYears) :
    (∀ (k : ℕ) (s1 s2 : YearlySnapshot), (finalState i).yearlyData[k]? = some s1 →
        (finalState i).yearlyData[k + 1]? = some s2 →
        s1.cumulativeBuyCost ≤ s2.cumulativeBuyCost ∧
          s1.cumulativeRentCost ≤ s2.cumulativeRentCost ∧
          s1.cumulativeTrueBuyCost ≤ s2.cumulativeTrueBuyCost) ∧
      (∀ (k : ℕ) (snap : YearlySnapshot), (finalState i).yearlyData[k]? = some snap →
        downPayment i ≤ snap.cumulativeBuyCost) := by
  constructor
  · intro k s1 s2 h1 h2
    obtain ⟨hk1, rfl⟩ := finalState_getElem_inv i k s1 h1
    obtain ⟨hk2, rfl⟩ := finalState_getElem_inv i (k + 1) s2 h2
    exact simYears_cum_mono hn hpct hterm (k + 1)
  · intro k snap h
    obtain ⟨hk, rfl⟩ := finalState_getElem_inv i k snap h
    exact simYears_cumBuy_ge_downPayment hn hpct hterm (k + 1)

/-- Witness record with a two-year horizon. -/
def iWY2 : Inputs :=
  { iW with yearsToAnalyze := 2 }

/-- Witness for C9 at the concrete record `iWY2`, snapshots 1 and 2. -/
theorem C9_cumulative_monotone_witness :
    NonnegInputs iWY2 ∧
      ((mkSnap iWY2 1).cumulativeBuyCost ≤ (mkSnap iWY2 2).cumulativeBuyCost ∧
        (mkSnap iWY2 1).cumulativeRentCost ≤ (mkSnap iWY2 2).cumulativeRentCost ∧
        (mkSnap iWY2 1).cumulativeTrueBuyCost ≤ (mkSnap iWY2 2).cumulativeTrueBuyCost) ∧
      downPayment iWY2 ≤ (mkSnap iWY2 1).cumulativeBuyCost :=
  ⟨by norm_num [NonnegInputs, iWY2, iW],
    (C9_cumulative_monotone iWY2 (by norm_num [NonnegInputs, iWY2, iW])
        (by norm_num [iWY2, iW]) (by decide)).1 0 (mkSnap iWY2 1) (mkSnap iWY2 2)
      (simYears_yearlyData_getElem iWY2 2 0 (by decide))
      (simYears_yearlyData_getElem iWY2 2 1 (by decide)),
    (C9_cumulative_monotone iWY2 (by norm_num [NonnegInputs, iWY2, iW])
        (by norm_num [iWY2, iW]) (by decide)).2 0 (mkSnap iWY2 1)
      (simYears_yearlyData_getElem iWY2 2 0 (by decide))⟩

/-- Counterexample to claim C9 as stated: at `cex7` every rate and currency
input is non-negative, yet `cumulativeBuyCost` strictly decreases from
snapshot 1 to snapshot 2 and snapshot 1 sits below the down payment. -/
theorem C9_cex :
    NonnegInputs cex7 ∧ 1 ≤ Inputs.loanTermYears cex7 ∧
      (finalState cex7).yearlyData[0]? = some (mkSnap cex7 1) ∧
      (finalState cex7).yearlyData[1]? = some (mkSnap cex7 2) ∧
      (mkSnap cex7 2).cumulativeBuyCost < (mkSnap cex7 1).cumulativeBuyCost ∧
      (mkSnap cex7 1).cumulativeBuyCost < downPayment cex7 := by
  have hr0 : monthlyRate cex7 = 0 := by norm_num [monthlyRate, cex7]
  have hP : monthlyMortgage cex7 = -100 / 12 := by
    rw [monthlyMortgage, if_pos hr0]
    norm_num [loanAmount, downPayment, numPayments, cex7]
  obtain ⟨d1, -, -, -, -⟩ :=
    degenerate_sim cex7 rfl rfl rfl rfl rfl hr0 (by rw [hP]; norm_num) 1 0
  obtain ⟨d2, -, -, -, -⟩ :=
    degenerate_sim cex7 rfl rfl rfl rfl rfl hr0 (by rw [hP]; norm_num) 2 0
  have e1 : (mkSnap cex7 1).cumulativeBuyCost = (simMonth cex7 1 0).cumulativeBuyCost := rfl
  have e2 : (mkSnap cex7 2).cumulativeBuyCost = (simMonth cex7 2 0).cumulativeBuyCost := rfl
  refine ⟨by norm_num [NonnegInputs, cex7], by decide,
    simYears_yearlyData_getElem cex7 3 0 (by decide),
    simYears_yearlyData_getElem cex7 3 1 (by decide), ?_, ?_⟩
  · rw [e1, e2, d1, d2, hP]
    push_cast
    linarith
  · rw [e1, d1, hP]
    push_cast
    linarith

/-- Claim C10 (amended with `0 ≤ homePrice`, as the data model requires):
the two savings pools are non-negative after every month and year-end, so
every snapshot's `rentNetWorth` is at least the compounded down payment,
which is itself at least the down payment. -/
theorem C10_savings_nonneg_rent_floor (i : Inputs) (hinv : 0 ≤ i.investmentReturn)
    (_hY : 1 ≤ i.yearsToAnalyze) :
    (∀ y m, 0 ≤ (simMonth i y m).rentSavings ∧ 0 ≤ (simMonth i y m).buySavings) ∧
      (∀ y, 0 ≤ (simYears i y).rentSavings ∧ 0 ≤ (simYears i y).buySavings) ∧
      (0 ≤ i.homePrice → 0 ≤ i.downPaymentPct →
        ∀ k snap, (finalState i).yearlyData[k]? = some snap →
          downPayment i * (1 + i.investmentReturn / 100) ^ (k + 1) ≤ snap.rentNetWorth ∧
          downPayment i ≤ downPayment i * (1 + i.investmentReturn / 100) ^ (k + 1)) := by
  refine ⟨fun y m => simMonth_savings_nonneg hinv y m,
    fun y => simYears_savings_nonneg hinv y, ?_⟩
  intro hhp hdp k snap h
  obtain ⟨hk, rfl⟩ := finalState_getElem_inv i k snap h
  have hrs := (simYears_savings_nonneg hinv (k + 1)).1
  have hdp0 := downPayment_nonneg i hhp hdp
  have hf : (1 : ℚ) ≤ 1 + i.investmentReturn / 100 := by
    have : (0 : ℚ) ≤ i.investmentReturn / 100 := by positivity
    linarith
  constructor
  · show downPayment i * (1 + i.investmentReturn / 100) ^ (k + 1) ≤
      downPayment i * (1 + annualInvestment i) ^ (k + 1) + (simYears i (k + 1)).rentSavings
    have he : annualInvestment i = i.investmentReturn / 100 := rfl
    rw [he]
    linarith
  · have h1f : (1 : ℚ) ≤ (1 + i.investmentReturn / 100) ^ (k + 1) := one_le_pow₀ hf
    exact le_mul_of_one_le_right hdp0 h1f

/-- Witness for C10 at the concrete record `iW`, year 1. -/
theorem C10_savings_nonneg_rent_floor_witness :
    0 ≤ Inputs.investmentReturn iW ∧ 1 ≤ Inputs.yearsToAnalyze iW ∧
      0 ≤ Inputs.homePrice iW ∧ 0 ≤ Inputs.downPaymentPct iW ∧
      (downPayment iW * (1 + Inputs.investmentReturn iW / 100) ^ 1 ≤
          (mkSnap iW 1).rentNetWorth ∧
        downPayment iW ≤ downPayment iW * (1 + Inputs.investmentReturn iW / 100) ^ 1) :=
  ⟨by norm_num [iW], by decide, by norm_num [iW], by norm_num [iW],
    (C10_savings_nonneg_rent_floor iW (by norm_num [iW]) (by decide)).2.2
      (by norm_num [iW]) (by norm_num [iW]) 0 (mkSnap iW 1)
      (simYears_yearlyData_getElem iW 1 0 (by decide))⟩

/-- A record with a negative home price but non-negative rates, for which
the compounded (negative) down payment falls below the down payment
itself. -/
def cex10 : Inputs :=
  { homePrice := -100
    downPaymentPct := 100
    mortgageRate := 0
    loanTermYears := 1
    propertyTaxRate := 0
    homeInsurance := 0
    maintenancePct := 0
    hoaMonthly := 0
    homeAppreciation := 0
    monthlyRent := 0
    rentIncrease := 0
    investmentReturn := 100
    yearsToAnalyze := 1 }

/-- Counterexample to claim C10 as stated: at `cex10` we have
`investmentReturn ≥ 0`, `yearsToAnalyze ≥ 1` and `downPaymentPct ≥ 0`, yet
year 1's `rentNetWorth` is strictly below the down payment. -/
theorem C10_cex :
    0 ≤ Inputs.investmentReturn cex10 ∧ 1 ≤ Inputs.yearsToAnalyze cex10 ∧
      0 ≤ Inputs.downPaymentPct cex10 ∧
      (finalState cex10).yearlyData[0]? = some (mkSnap cex10 1) ∧
      (mkSnap cex10 1).rentNetWorth < downPayment cex10 := by
  have hr0 : monthlyRate cex10 = 0 := by norm_num [monthlyRate, cex10]
  have hP0 : monthlyMortgage cex10 = 0 := by
    rw [monthlyMortgage, if_pos hr0]
    norm_num [loanAmount, downPayment, numPayments, cex10]
  obtain ⟨-, -, -, -, d5⟩ :=
    degenerate_sim cex10 rfl rfl rfl rfl rfl hr0 (le_of_eq hP0) 1 0
  refine ⟨by norm_num [cex10], by decide, by norm_num [cex10],
    simYears_yearlyData_getElem cex10 1 0 (by decide), ?_⟩
  have e : (mkSnap cex10 1).rentNetWorth =
      downPayment cex10 * (1 + annualInvestment cex10) ^ 1 +
        (simYears cex10 1).rentSavings := rfl
  rw [e, show (simYears cex10 1).rentSavings = (simMonth cex10 1 0).rentSavings from rfl, d5]
  norm_num [downPayment, annualInvestment, cex10]

end RentVsBuy
